import Mathlib

/-!
Verification of the live-tracking screen (`src/pages/LiveMap.tsx`) and the
token-gated map widget (`src/components/Map.tsx`).

The screen state and its event handlers are embedded shallowly: JavaScript
numbers become rationals (`ℚ`) or integers (`ℤ`), the React `useState` pieces
become fields of `ScreenState`, the timer callbacks and button handlers become
pure state transformers, and the event-loop behaviour becomes a step relation
restricted by `enabled` (an event can only be delivered when the screen is
mounted, the corresponding timer is armed, and — for button clicks — the
rendering logic actually offers the button in the current status).
-/

set_option autoImplicit false

namespace LiveTracking

/-- A (latitude, longitude) pair; JS floating-point numbers are idealised as
rationals. -/
structure Coord where
  lat : ℚ
  lng : ℚ
deriving DecidableEq, Repr

/-- The trip status enumeration `"on_way" | "arrived" | "completed"`
(LiveMap.tsx line 17). -/
inductive Status where
  | on_way
  | arrived
  | completed
deriving DecidableEq, Repr

/-- The inbound navigation context destructured from `location.state`:
`{ mode, requestId, supporterId }`; each field may be `undefined` (`none`). -/
structure InboundState where
  mode : Option String
  requestId : Option String
  supporterId : Option String
deriving DecidableEq, Repr

/-- `const { mode, requestId, supporterId } = location.state || {}`
(LiveMap.tsx line 12): a missing navigation state yields all-`undefined`. -/
def readContext : Option InboundState → InboundState
  | some st => st
  | none => { mode := none, requestId := none, supporterId := none }

/-- One outbound `navigate(target, { state })` call with the payload fields
actually passed by the screen (`{ supporterId, mode }`). -/
structure NavCall where
  target : String
  supporterId : Option String
  mode : Option String
deriving DecidableEq, Repr

/-- One `toast({ title, description })` notification. -/
structure Toast where
  title : String
  description : String
deriving DecidableEq, Repr

/-- The toast emitted by the arrival timeout callback (LiveMap.tsx lines 33-36). -/
def arrivalToast : Toast :=
  { title := "Supporter Arrived!"
    description := "Your supporter has reached the location" }

/-- The toast emitted by `handleCallSupporter` (LiveMap.tsx lines 50-55). -/
def callToast : Toast :=
  { title := "Calling Supporter", description := "Connecting you now..." }

/-- The toast emitted by `handleMessageSupporter` (LiveMap.tsx lines 57-62). -/
def messageToast : Toast :=
  { title := "Message Sent"
    description := "You can now chat with your supporter" }

/-- The complete state of the `LiveMap` screen: the navigation context (fixed
at mount), the four `useState` pieces, the armed/cancelled state of the two
timers registered in the `useEffect`, a `mounted` flag, and the observable
histories of outbound navigation calls and toasts. -/
structure ScreenState where
  ctx : InboundState
  supporterLocation : Coord
  userLocation : Coord
  estimatedTime : ℤ
  status : Status
  mounted : Bool
  intervalActive : Bool
  arrivalArmed : Bool
  navCalls : List NavCall
  toasts : List Toast
deriving DecidableEq, Repr

/-- The fixed stand-in coordinate `{ lat: 12.9716, lng: 77.5946 }`
(LiveMap.tsx lines 14-15). -/
def initCoord : Coord := { lat := 129716 / 10000, lng := 775946 / 10000 }

/-- The screen state right after mount: both coordinates at `initCoord`,
`estimatedTime = 15`, `status = "on_way"`, both timers armed by the mount
effect, no outputs yet (LiveMap.tsx lines 14-43). -/
def initState (inbound : Option InboundState) : ScreenState :=
  { ctx := readContext inbound
    supporterLocation := initCoord
    userLocation := initCoord
    estimatedTime := 15
    status := Status.on_way
    mounted := true
    intervalActive := true
    arrivalArmed := true
    navCalls := []
    toasts := [] }

/-- The per-component random offset `(Math.random() - 0.5) * 0.001`
(LiveMap.tsx lines 23-24), with the random draw `r ∈ [0, 1)` made explicit. -/
def jitterOffset (r : ℚ) : ℚ := (r - 1 / 2) * (1 / 1000)

/-- One firing of the 3-second interval callback (LiveMap.tsx lines 21-28):
perturb each component of `supporterLocation` by an independent random offset
and update `estimatedTime` to `Math.max(0, prev - 1)`.  Note the callback does
not consult `status`. -/
def jitterTick (r1 r2 : ℚ) (s : ScreenState) : ScreenState :=
  { s with
    supporterLocation :=
      { lat := s.supporterLocation.lat + jitterOffset r1
        lng := s.supporterLocation.lng + jitterOffset r2 }
    estimatedTime := max 0 (s.estimatedTime - 1) }

/-- The firing of the 15-second one-shot arrival timeout (LiveMap.tsx lines
31-37): set `status = "arrived"` and emit the arrival toast.  A fired timeout
is no longer pending, so the armed flag drops. -/
def arrivalFire (s : ScreenState) : ScreenState :=
  { s with
    status := Status.arrived
    arrivalArmed := false
    toasts := s.toasts ++ [arrivalToast] }

/-- `handleCompleteSession` (LiveMap.tsx lines 45-48): set
`status = "completed"` and issue one
`navigate("/rating", { state: { supporterId, mode } })` call. -/
def handleCompleteSession (s : ScreenState) : ScreenState :=
  { s with
    status := Status.completed
    navCalls := s.navCalls ++
      [{ target := "/rating"
         supporterId := s.ctx.supporterId
         mode := s.ctx.mode }] }

/-- `handleCallSupporter` (LiveMap.tsx lines 50-55): toast only. -/
def handleCallSupporter (s : ScreenState) : ScreenState :=
  { s with toasts := s.toasts ++ [callToast] }

/-- `handleMessageSupporter` (LiveMap.tsx lines 57-62): toast only. -/
def handleMessageSupporter (s : ScreenState) : ScreenState :=
  { s with toasts := s.toasts ++ [messageToast] }

/-- The `useEffect` cleanup on unmount (LiveMap.tsx lines 39-42):
`clearInterval(interval)` and `clearTimeout(arrivalTimer)`; the screen is gone
afterwards. -/
def unmountScreen (s : ScreenState) : ScreenState :=
  { s with mounted := false, intervalActive := false, arrivalArmed := false }

/-- The events the event loop can deliver to the screen. -/
inductive Event where
  | jitter (r1 r2 : ℚ)
  | arrival
  | completeClick
  | callClick
  | messageClick
  | unmount
deriving DecidableEq, Repr

/-- When an event can actually be delivered: timer callbacks require the
screen to be mounted and the timer still armed (the cleanup cancels both);
button clicks require the rendering logic to offer the button — the
message/call buttons render in the `on_way` and `arrived` branches
(LiveMap.tsx lines 124-141 and 150-164) and the complete-session button only
in the `arrived` branch (LiveMap.tsx lines 143-174).  Random draws come from
`Math.random() ∈ [0, 1)`. -/
def enabled (s : ScreenState) : Event → Prop
  | Event.jitter r1 r2 =>
      s.mounted = true ∧ s.intervalActive = true ∧
        0 ≤ r1 ∧ r1 < 1 ∧ 0 ≤ r2 ∧ r2 < 1
  | Event.arrival => s.mounted = true ∧ s.arrivalArmed = true
  | Event.completeClick => s.mounted = true ∧ s.status = Status.arrived
  | Event.callClick =>
      s.mounted = true ∧
        (s.status = Status.on_way ∨ s.status = Status.arrived)
  | Event.messageClick =>
      s.mounted = true ∧
        (s.status = Status.on_way ∨ s.status = Status.arrived)
  | Event.unmount => s.mounted = true

/-- The effect of each event on the screen state. -/
def apply : Event → ScreenState → ScreenState
  | Event.jitter r1 r2, s => jitterTick r1 r2 s
  | Event.arrival, s => arrivalFire s
  | Event.completeClick, s => handleCompleteSession s
  | Event.callClick, s => handleCallSupporter s
  | Event.messageClick, s => handleMessageSupporter s
  | Event.unmount, s => unmountScreen s

/-- One step of the screen: an enabled event is delivered. -/
inductive Step : ScreenState → ScreenState → Prop where
  | mk (e : Event) (s : ScreenState) (h : enabled s e) : Step s (apply e s)

/-- The states the screen can reach from mount with inbound context
`inbound`. -/
inductive Reachable (inbound : Option InboundState) : ScreenState → Prop where
  | init : Reachable inbound (initState inbound)
  | step {s t : ScreenState} : Reachable inbound s → Step s t →
      Reachable inbound t

/-- A concrete inbound navigation context used to exercise the screen. -/
def sampleInbound : InboundState :=
  { mode := some "supporter", requestId := some "req-1",
    supporterId := some "sup-1" }

/-- Whether the ETA block is rendered: only inside the
`status === "on_way"` branch of the status card (LiveMap.tsx lines 113-121). -/
def etaDisplayed (s : ScreenState) : Bool := s.status = Status.on_way

/-- The inductive invariant of the screen's reachable states: the navigation
context never changes after mount, the ETA is non-negative, a still-armed
arrival timeout means the arrival has not yet happened (status still
`on_way`, no arrival toast yet), the arrival toast appears at most once, the
jitter interval is armed exactly while the screen is mounted, and an armed
arrival timeout implies a mounted screen. -/
structure Inv (inbound : Option InboundState) (s : ScreenState) : Prop where
  ctx_eq : s.ctx = readContext inbound
  eta_nonneg : 0 ≤ s.estimatedTime
  armed_on_way : s.arrivalArmed = true → s.status = Status.on_way
  armed_no_toast : s.arrivalArmed = true → s.toasts.count arrivalToast = 0
  toast_once : s.toasts.count arrivalToast ≤ 1
  interval_mounted : s.intervalActive = s.mounted
  armed_mounted : s.arrivalArmed = true → s.mounted = true

end LiveTracking

namespace MapWidget

/-- The `useState` pieces of the Mapbox `Map` component
(Map.tsx lines 21-24). -/
structure MapState where
  mapboxToken : String
  tokenInput : String
  mapError : String
  isMapReady : Bool
deriving DecidableEq, Repr

/-- Initial component state: empty token, empty input, no error, map not
ready. -/
def initMapState : MapState :=
  { mapboxToken := "", tokenInput := "", mapError := "", isMapReady := false }

/-- What the component's render function returns, by branch
(Map.tsx lines 136-215). -/
inductive MapView where
  | tokenPrompt
  | errorCard
  | mapSurface
deriving DecidableEq, Repr

/-- The render branch selection: `if (!mapboxToken)` → credential prompt,
else `if (mapError)` → inline error card, else the map surface
(Map.tsx lines 136, 173, 199). -/
def render (m : MapState) : MapView :=
  if m.mapboxToken = "" then MapView.tokenPrompt
  else if m.mapError ≠ "" then MapView.errorCard
  else MapView.mapSurface

/-- `handleTokenSubmit` (Map.tsx lines 129-134): if the trimmed input is
non-empty, store it as the token and clear the error. -/
def handleTokenSubmit (m : MapState) : MapState :=
  if m.tokenInput.trim ≠ "" then
    { m with mapboxToken := m.tokenInput.trim, mapError := "" }
  else m

/-- The catch branch of map construction (Map.tsx lines 67-70). -/
def initFailure (m : MapState) : MapState :=
  { m with mapError := "Failed to initialize map. Please check your Mapbox token." }

/-- The map `error` event handler (Map.tsx lines 57-60). -/
def loadFailure (m : MapState) : MapState :=
  { m with
    mapError := "Map failed to load. Please check your API key and internet connection." }

/-- The "Try Again" click handler of the error card (Map.tsx lines 185-188):
clear both the stored token and the error. -/
def tryAgain (m : MapState) : MapState :=
  { m with mapboxToken := "", mapError := "" }

end MapWidget

namespace LiveTracking

/-- The role-dependent subtitle under the header
(LiveMap.tsx line 79). -/
def subtitle (ctx : InboundState) : String :=
  if ctx.mode = some "supporter" then "Navigate to requestor"
  else "Track your supporter"

theorem count_arrival_in_call : ([callToast].count arrivalToast) = 0 := by
  decide

theorem count_arrival_in_message : ([messageToast].count arrivalToast) = 0 := by
  decide

theorem count_arrival_in_arrival : ([arrivalToast].count arrivalToast) = 1 := by
  decide

theorem inv_init (inbound : Option InboundState) : Inv inbound (initState inbound) := by
  constructor <;> simp [initState]

theorem inv_step {inbound : Option InboundState} {s t : ScreenState}
    (h : Inv inbound s) (hst : Step s t) : Inv inbound t := by
  obtain ⟨e, s, he⟩ := hst
  cases e with
  | jitter r1 r2 =>
      exact { ctx_eq := h.ctx_eq
              eta_nonneg := le_max_left 0 _
              armed_on_way := h.armed_on_way
              armed_no_toast := h.armed_no_toast
              toast_once := h.toast_once
              interval_mounted := h.interval_mounted
              armed_mounted := h.armed_mounted }
  | arrival =>
      have hcount : s.toasts.count arrivalToast = 0 := h.armed_no_toast he.2
      refine { ctx_eq := h.ctx_eq, eta_nonneg := h.eta_nonneg
               interval_mounted := h.interval_mounted
               armed_on_way := ?_, armed_no_toast := ?_
               toast_once := ?_, armed_mounted := ?_ }
      · intro hfalse
        exact absurd hfalse (by simp [apply, arrivalFire])
      · intro hfalse
        exact absurd hfalse (by simp [apply, arrivalFire])
      · show (s.toasts ++ [arrivalToast]).count arrivalToast ≤ 1
        rw [List.count_append, hcount, count_arrival_in_arrival]
      · intro hfalse
        exact absurd hfalse (by simp [apply, arrivalFire])
  | completeClick =>
      have harmed : s.arrivalArmed = false := by
        by_contra hne
        have := h.armed_on_way (by simpa using hne)
        rw [he.2] at this
        exact absurd this (by simp)
      refine { ctx_eq := h.ctx_eq, eta_nonneg := h.eta_nonneg
               toast_once := h.toast_once
               interval_mounted := h.interval_mounted
               armed_on_way := ?_, armed_no_toast := ?_, armed_mounted := ?_ }
      · intro htrue
        exact absurd (harmed ▸ htrue) (by simp)
      · intro htrue
        exact absurd (harmed ▸ htrue) (by simp)
      · intro htrue
        exact absurd (harmed ▸ htrue) (by simp)
  | callClick =>
      refine { ctx_eq := h.ctx_eq, eta_nonneg := h.eta_nonneg
               armed_on_way := h.armed_on_way
               interval_mounted := h.interval_mounted
               armed_mounted := h.armed_mounted
               armed_no_toast := ?_, toast_once := ?_ }
      · intro htrue
        show (s.toasts ++ [callToast]).count arrivalToast = 0
        rw [List.count_append, h.armed_no_toast htrue, count_arrival_in_call]
      · show (s.toasts ++ [callToast]).count arrivalToast ≤ 1
        rw [List.count_append, count_arrival_in_call]
        simpa using h.toast_once
  | messageClick =>
      refine { ctx_eq := h.ctx_eq, eta_nonneg := h.eta_nonneg
               armed_on_way := h.armed_on_way
               interval_mounted := h.interval_mounted
               armed_mounted := h.armed_mounted
               armed_no_toast := ?_, toast_once := ?_ }
      · intro htrue
        show (s.toasts ++ [messageToast]).count arrivalToast = 0
        rw [List.count_append, h.armed_no_toast htrue, count_arrival_in_message]
      · show (s.toasts ++ [messageToast]).count arrivalToast ≤ 1
        rw [List.count_append, count_arrival_in_message]
        simpa using h.toast_once
  | unmount =>
      refine { ctx_eq := h.ctx_eq, eta_nonneg := h.eta_nonneg
               toast_once := h.toast_once
               armed_on_way := ?_, armed_no_toast := ?_
               interval_mounted := ?_, armed_mounted := ?_ }
      · intro hfalse
        exact absurd hfalse (by simp [apply, unmountScreen])
      · intro hfalse
        exact absurd hfalse (by simp [apply, unmountScreen])
      · rfl
      · intro hfalse
        exact absurd hfalse (by simp [apply, unmountScreen])

theorem reachable_inv {inbound : Option InboundState} {s : ScreenState}
    (h : Reachable inbound s) : Inv inbound s := by
  induction h with
  | init => exact inv_init inbound
  | step _ hst ih => exact inv_step ih hst

/-- C1: the trip status starts at `on_way`, and every step of every reachable
execution either leaves the status unchanged, moves `on_way → arrived`, or
moves `arrived → completed` — so no reachable transition skips `arrived` on
the way to `completed` and none moves the status backwards. -/
theorem status_progression (inbound : Option InboundState) :
    (initState inbound).status = Status.on_way ∧
    ∀ s t : ScreenState, Reachable inbound s → Step s t →
      t.status = s.status ∨
      (s.status = Status.on_way ∧ t.status = Status.arrived) ∨
      (s.status = Status.arrived ∧ t.status = Status.completed) := by
  refine ⟨rfl, ?_⟩
  intro s t hr hst
  have hinv := reachable_inv hr
  obtain ⟨e, s, he⟩ := hst
  cases e with
  | jitter r1 r2 => exact Or.inl rfl
  | arrival => exact Or.inr (Or.inl ⟨hinv.armed_on_way he.2, rfl⟩)
  | completeClick => exact Or.inr (Or.inr ⟨he.2, rfl⟩)
  | callClick => exact Or.inl rfl
  | messageClick => exact Or.inl rfl
  | unmount => exact Or.inl rfl

theorem status_progression_witness :
    (initState none).status = Status.on_way ∧
    ((apply Event.arrival (initState none)).status = (initState none).status ∨
     ((initState none).status = Status.on_way ∧
        (apply Event.arrival (initState none)).status = Status.arrived) ∨
     ((initState none).status = Status.arrived ∧
        (apply Event.arrival (initState none)).status = Status.completed)) :=
  ⟨(status_progression none).1,
   (status_progression none).2 (initState none) (apply Event.arrival (initState none))
     Reachable.init (Step.mk Event.arrival (initState none) ⟨rfl, rfl⟩)⟩

/-- C2: the complete-session button is only offered while the status is
`arrived`; clicking it sets the status to `completed` and issues exactly one
navigation call to `"/rating"` whose payload carries the supporter id and the
role flag received in the original inbound navigation context. -/
theorem complete_session_correct (inbound : Option InboundState) (s : ScreenState)
    (hr : Reachable inbound s) (he : enabled s Event.completeClick) :
    s.status = Status.arrived ∧
    (apply Event.completeClick s).status = Status.completed ∧
    (apply Event.completeClick s).navCalls =
      s.navCalls ++
        [{ target := "/rating"
           supporterId := (readContext inbound).supporterId
           mode := (readContext inbound).mode }] := by
  have hinv := reachable_inv hr
  refine ⟨he.2, rfl, ?_⟩
  show s.navCalls ++
      [{ target := "/rating", supporterId := s.ctx.supporterId, mode := s.ctx.mode }] = _
  rw [hinv.ctx_eq]

theorem complete_session_correct_witness :
    (apply Event.arrival (initState (some sampleInbound))).status = Status.arrived ∧
    (apply Event.completeClick
        (apply Event.arrival (initState (some sampleInbound)))).status
      = Status.completed ∧
    (apply Event.completeClick
        (apply Event.arrival (initState (some sampleInbound)))).navCalls =
      (apply Event.arrival (initState (some sampleInbound))).navCalls ++
        [{ target := "/rating"
           supporterId := (readContext (some sampleInbound)).supporterId
           mode := (readContext (some sampleInbound)).mode }] :=
  complete_session_correct (some sampleInbound) _
    (Reachable.step Reachable.init (Step.mk Event.arrival _ ⟨rfl, rfl⟩))
    ⟨rfl, rfl⟩

/-- C3: in any reachable state whose status is `on_way`, the ETA is a
non-negative integer, one jitter firing updates it to exactly
`max 0 (eta - 1)` (decrement by one, clamped at zero), and consequently the
firing never increases it and never drives it below zero. -/
theorem eta_on_way (inbound : Option InboundState) (s : ScreenState)
    (hr : Reachable inbound s) (_hs : s.status = Status.on_way) (r1 r2 : ℚ) :
    0 ≤ s.estimatedTime ∧
    (jitterTick r1 r2 s).estimatedTime = max 0 (s.estimatedTime - 1) ∧
    (jitterTick r1 r2 s).estimatedTime ≤ s.estimatedTime ∧
    0 ≤ (jitterTick r1 r2 s).estimatedTime := by
  have h0 := (reachable_inv hr).eta_nonneg
  refine ⟨h0, rfl, ?_, le_max_left 0 _⟩
  exact max_le h0 (by omega)

theorem eta_on_way_witness :
    0 ≤ (initState none).estimatedTime ∧
    (jitterTick (1/2) (1/2) (initState none)).estimatedTime =
      max 0 ((initState none).estimatedTime - 1) ∧
    (jitterTick (1/2) (1/2) (initState none)).estimatedTime ≤
      (initState none).estimatedTime ∧
    0 ≤ (jitterTick (1/2) (1/2) (initState none)).estimatedTime :=
  eta_on_way none (initState none) Reachable.init rfl (1/2) (1/2)

/-- C4 counterexample: after the arrival timeout has fired (status `arrived`,
ETA still 15), the jitter interval is still enabled and its next firing
changes the ETA from 15 to 14 — the stored ETA value is not frozen once the
status leaves `on_way`. -/
theorem eta_frozen_counterexample :
    (apply Event.arrival (initState none)).status = Status.arrived ∧
    enabled (apply Event.arrival (initState none)) (Event.jitter (1/2) (1/2)) ∧
    (apply Event.arrival (initState none)).estimatedTime = 15 ∧
    (apply (Event.jitter (1/2) (1/2)) (apply Event.arrival (initState none))).estimatedTime
      = 14 :=
  ⟨rfl, ⟨rfl, rfl, by norm_num, by norm_num, by norm_num, by norm_num⟩, rfl, by decide⟩

/-- C4 amended: once the status leaves `on_way` the ETA is merely no longer
displayed; the stored value is still updated to `max 0 (eta - 1)` by every
jitter firing, while every other event leaves it unchanged. -/
theorem eta_after_on_way (s : ScreenState) (hs : s.status ≠ Status.on_way)
    (r1 r2 : ℚ) :
    etaDisplayed s = false ∧
    (apply (Event.jitter r1 r2) s).estimatedTime = max 0 (s.estimatedTime - 1) ∧
    (apply Event.arrival s).estimatedTime = s.estimatedTime ∧
    (apply Event.completeClick s).estimatedTime = s.estimatedTime ∧
    (apply Event.callClick s).estimatedTime = s.estimatedTime ∧
    (apply Event.messageClick s).estimatedTime = s.estimatedTime ∧
    (apply Event.unmount s).estimatedTime = s.estimatedTime :=
  ⟨by simp [etaDisplayed, hs], rfl, rfl, rfl, rfl, rfl, rfl⟩

theorem eta_after_on_way_witness :
    (apply Event.arrival (initState none)).status ≠ Status.on_way ∧
    (etaDisplayed (apply Event.arrival (initState none)) = false ∧
     (apply (Event.jitter (1/2) (1/2)) (apply Event.arrival (initState none))).estimatedTime
       = max 0 ((apply Event.arrival (initState none)).estimatedTime - 1) ∧
     (apply Event.arrival (apply Event.arrival (initState none))).estimatedTime
       = (apply Event.arrival (initState none)).estimatedTime ∧
     (apply Event.completeClick (apply Event.arrival (initState none))).estimatedTime
       = (apply Event.arrival (initState none)).estimatedTime ∧
     (apply Event.callClick (apply Event.arrival (initState none))).estimatedTime
       = (apply Event.arrival (initState none)).estimatedTime ∧
     (apply Event.messageClick (apply Event.arrival (initState none))).estimatedTime
       = (apply Event.arrival (initState none)).estimatedTime ∧
     (apply Event.unmount (apply Event.arrival (initState none))).estimatedTime
       = (apply Event.arrival (initState none)).estimatedTime) :=
  ⟨by decide, eta_after_on_way (apply Event.arrival (initState none)) (by decide) (1/2) (1/2)⟩

theorem jitterOffset_bounds (r : ℚ) (h0 : 0 ≤ r) (h1 : r < 1) :
    -(5/10000) ≤ jitterOffset r ∧ jitterOffset r < 5/10000 := by
  unfold jitterOffset
  constructor <;> nlinarith

/-- C5 counterexample: `Math.random()` may return exactly 0, and with that
draw the latitude change of a jitter firing is exactly −0.0005 — the lower
endpoint of the range — so the change is not *strictly* within the symmetric
range (−0.0005, +0.0005). -/
theorem jitter_strict_range_counterexample :
    enabled (initState none) (Event.jitter 0 (1/2)) ∧
    (apply (Event.jitter 0 (1/2)) (initState none)).supporterLocation.lat -
        (initState none).supporterLocation.lat = -(5/10000) ∧
    ¬ (-(5/10000 : ℚ) <
        (apply (Event.jitter 0 (1/2)) (initState none)).supporterLocation.lat -
          (initState none).supporterLocation.lat) := by
  refine ⟨⟨rfl, rfl, le_refl 0, by norm_num, by norm_num, by norm_num⟩, ?_, ?_⟩
  · show initCoord.lat + jitterOffset 0 - initCoord.lat = -(5/10000)
    unfold jitterOffset
    ring
  · show ¬ (-(5/10000 : ℚ) < initCoord.lat + jitterOffset 0 - initCoord.lat)
    unfold jitterOffset
    intro hlt
    nlinarith

/-- C5 amended: every enabled jitter firing changes each coordinate component
by an amount in the half-open range [−0.0005, +0.0005): at least −0.0005
(attained exactly when the random draw is 0) and strictly below +0.0005. -/
theorem jitter_offset_range (s : ScreenState) (r1 r2 : ℚ)
    (he : enabled s (Event.jitter r1 r2)) :
    -(5/10000) ≤ (apply (Event.jitter r1 r2) s).supporterLocation.lat -
        s.supporterLocation.lat ∧
    (apply (Event.jitter r1 r2) s).supporterLocation.lat -
        s.supporterLocation.lat < 5/10000 ∧
    -(5/10000) ≤ (apply (Event.jitter r1 r2) s).supporterLocation.lng -
        s.supporterLocation.lng ∧
    (apply (Event.jitter r1 r2) s).supporterLocation.lng -
        s.supporterLocation.lng < 5/10000 := by
  obtain ⟨-, -, h1, h2, h3, h4⟩ := he
  have heq1 : (apply (Event.jitter r1 r2) s).supporterLocation.lat -
      s.supporterLocation.lat = jitterOffset r1 := by
    show s.supporterLocation.lat + jitterOffset r1 - s.supporterLocation.lat = _
    ring
  have heq2 : (apply (Event.jitter r1 r2) s).supporterLocation.lng -
      s.supporterLocation.lng = jitterOffset r2 := by
    show s.supporterLocation.lng + jitterOffset r2 - s.supporterLocation.lng = _
    ring
  rw [heq1, heq2]
  obtain ⟨hb1, hb2⟩ := jitterOffset_bounds r1 h1 h2
  obtain ⟨hb3, hb4⟩ := jitterOffset_bounds r2 h3 h4
  exact ⟨hb1, hb2, hb3, hb4⟩

theorem jitter_offset_range_witness :
    -(5/10000) ≤ (apply (Event.jitter 0 (1/2)) (initState none)).supporterLocation.lat -
        (initState none).supporterLocation.lat ∧
    (apply (Event.jitter 0 (1/2)) (initState none)).supporterLocation.lat -
        (initState none).supporterLocation.lat < 5/10000 ∧
    -(5/10000) ≤ (apply (Event.jitter 0 (1/2)) (initState none)).supporterLocation.lng -
        (initState none).supporterLocation.lng ∧
    (apply (Event.jitter 0 (1/2)) (initState none)).supporterLocation.lng -
        (initState none).supporterLocation.lng < 5/10000 :=
  jitter_offset_range (initState none) 0 (1/2)
    ⟨rfl, rfl, le_refl 0, by norm_num, by norm_num, by norm_num⟩

/-- C6: in any reachable state the arrival toast has been emitted at most
once; no step ever re-arms the arrival timeout; and when the arrival timeout
is still armed on a mounted screen, its firing sets the status to `arrived`,
disarms the timeout forever, and leaves exactly one arrival toast emitted
over the whole lifetime so far. -/
theorem arrival_fires_once (inbound : Option InboundState) (s : ScreenState)
    (hr : Reachable inbound s) :
    s.toasts.count arrivalToast ≤ 1 ∧
    (∀ t : ScreenState, Step s t → t.arrivalArmed = true → s.arrivalArmed = true) ∧
    (enabled s Event.arrival →
      (apply Event.arrival s).status = Status.arrived ∧
      (apply Event.arrival s).arrivalArmed = false ∧
      (apply Event.arrival s).toasts.count arrivalToast = 1) := by
  have hinv := reachable_inv hr
  refine ⟨hinv.toast_once, ?_, ?_⟩
  · intro t hst
    obtain ⟨e, s, he⟩ := hst
    cases e with
    | jitter r1 r2 => exact fun h => h
    | arrival => intro hfalse; exact absurd hfalse (by simp [apply, arrivalFire])
    | completeClick => exact fun h => h
    | callClick => exact fun h => h
    | messageClick => exact fun h => h
    | unmount => intro hfalse; exact absurd hfalse (by simp [apply, unmountScreen])
  · intro he
    refine ⟨rfl, rfl, ?_⟩
    show (s.toasts ++ [arrivalToast]).count arrivalToast = 1
    rw [List.count_append, hinv.armed_no_toast he.2, count_arrival_in_arrival]

theorem arrival_fires_once_witness :
    (initState none).toasts.count arrivalToast ≤ 1 ∧
    ((apply Event.arrival (initState none)).arrivalArmed = true →
      (initState none).arrivalArmed = true) ∧
    ((apply Event.arrival (initState none)).status = Status.arrived ∧
     (apply Event.arrival (initState none)).arrivalArmed = false ∧
     (apply Event.arrival (initState none)).toasts.count arrivalToast = 1) :=
  ⟨(arrival_fires_once none (initState none) Reachable.init).1,
   (arrival_fires_once none (initState none) Reachable.init).2.1 _
     (Step.mk Event.arrival _ ⟨rfl, rfl⟩),
   (arrival_fires_once none (initState none) Reachable.init).2.2 ⟨rfl, rfl⟩⟩

/-- C7: in any reachable mounted state — whatever the status — the jitter
interval is still armed and its firing is enabled and perturbs both
components of the supporter location, and neither the arrival firing nor the
session-completion click deactivates the interval. -/
theorem jitter_runs_for_lifetime (inbound : Option InboundState) (s : ScreenState)
    (hr : Reachable inbound s) (hm : s.mounted = true) (r1 r2 : ℚ)
    (h1 : 0 ≤ r1) (h2 : r1 < 1) (h3 : 0 ≤ r2) (h4 : r2 < 1) :
    enabled s (Event.jitter r1 r2) ∧
    (apply (Event.jitter r1 r2) s).supporterLocation.lat
      = s.supporterLocation.lat + jitterOffset r1 ∧
    (apply (Event.jitter r1 r2) s).supporterLocation.lng
      = s.supporterLocation.lng + jitterOffset r2 ∧
    (apply Event.arrival s).intervalActive = s.intervalActive ∧
    (apply Event.completeClick s).intervalActive = s.intervalActive := by
  have hint : s.intervalActive = true := (reachable_inv hr).interval_mounted.trans hm
  exact ⟨⟨hm, hint, h1, h2, h3, h4⟩, rfl, rfl, rfl, rfl⟩

theorem jitter_runs_for_lifetime_witness :
    enabled (apply Event.arrival (initState none)) (Event.jitter (1/2) (1/2)) ∧
    (apply (Event.jitter (1/2) (1/2))
        (apply Event.arrival (initState none))).supporterLocation.lat
      = (apply Event.arrival (initState none)).supporterLocation.lat +
          jitterOffset (1/2) ∧
    (apply (Event.jitter (1/2) (1/2))
        (apply Event.arrival (initState none))).supporterLocation.lng
      = (apply Event.arrival (initState none)).supporterLocation.lng +
          jitterOffset (1/2) ∧
    (apply Event.arrival (apply Event.arrival (initState none))).intervalActive
      = (apply Event.arrival (initState none)).intervalActive ∧
    (apply Event.completeClick (apply Event.arrival (initState none))).intervalActive
      = (apply Event.arrival (initState none)).intervalActive :=
  jitter_runs_for_lifetime none (apply Event.arrival (initState none))
    (Reachable.step Reachable.init (Step.mk Event.arrival _ ⟨rfl, rfl⟩))
    rfl (1/2) (1/2) (by norm_num) (by norm_num) (by norm_num) (by norm_num)

/-- C8: the unmount cleanup cancels both timers — afterwards the jitter
interval is inactive, the arrival timeout is disarmed, the screen is
unmounted, and no event whatsoever can be delivered any more, so no callback
fires and no screen state changes after unmount. -/
theorem unmount_cancels_timers (s : ScreenState) :
    (apply Event.unmount s).intervalActive = false ∧
    (apply Event.unmount s).arrivalArmed = false ∧
    (apply Event.unmount s).mounted = false ∧
    ∀ t : ScreenState, ¬ Step (apply Event.unmount s) t := by
  refine ⟨rfl, rfl, rfl, ?_⟩
  intro t hst
  obtain ⟨e, s', he⟩ := hst
  cases e <;> simp [enabled, apply, unmountScreen] at he

theorem unmount_cancels_timers_witness :
    (apply Event.unmount (initState none)).intervalActive = false ∧
    (apply Event.unmount (initState none)).arrivalArmed = false ∧
    (apply Event.unmount (initState none)).mounted = false ∧
    ¬ Step (apply Event.unmount (initState none))
        (apply (Event.jitter (1/2) (1/2)) (apply Event.unmount (initState none))) :=
  ⟨(unmount_cancels_timers (initState none)).1,
   (unmount_cancels_timers (initState none)).2.1,
   (unmount_cancels_timers (initState none)).2.2.1,
   (unmount_cancels_timers (initState none)).2.2.2 _⟩

end LiveTracking

namespace MapWidget

/-- C9: the token-gated map widget handles both error conditions non-fatally:
with no stored credential it renders the credential prompt (never a map
surface); with a credential present, an initialization failure or a load
failure makes it render the inline error card; and the error card's retry
action clears both the stored token and the error, putting the component back
in the uninitialized credential-prompt state. -/
theorem map_error_states (m : MapState) :
    (m.mapboxToken = "" → render m = MapView.tokenPrompt) ∧
    (m.mapboxToken ≠ "" →
      render (initFailure m) = MapView.errorCard ∧
      render (loadFailure m) = MapView.errorCard) ∧
    (tryAgain m).mapboxToken = "" ∧
    (tryAgain m).mapError = "" ∧
    render (tryAgain m) = MapView.tokenPrompt := by
  refine ⟨?_, ?_, rfl, rfl, ?_⟩
  · intro h
    simp [render, h]
  · intro h
    constructor <;> simp [render, initFailure, loadFailure, h]
  · simp [render, tryAgain]

theorem map_error_states_witness :
    (render initMapState = MapView.tokenPrompt) ∧
    (render (initFailure { initMapState with mapboxToken := "pk-token" })
        = MapView.errorCard ∧
     render (loadFailure { initMapState with mapboxToken := "pk-token" })
        = MapView.errorCard) ∧
    (tryAgain { initMapState with mapboxToken := "pk-token" }).mapboxToken = "" ∧
    (tryAgain { initMapState with mapboxToken := "pk-token" }).mapError = "" ∧
    render (tryAgain { initMapState with mapboxToken := "pk-token" })
        = MapView.tokenPrompt :=
  ⟨(map_error_states initMapState).1 rfl,
   (map_error_states { initMapState with mapboxToken := "pk-token" }).2.1 (by simp),
   (map_error_states { initMapState with mapboxToken := "pk-token" }).2.2.1,
   (map_error_states { initMapState with mapboxToken := "pk-token" }).2.2.2.1,
   (map_error_states { initMapState with mapboxToken := "pk-token" }).2.2.2.2⟩

end MapWidget

namespace LiveTracking

/-- C10: opened without any inbound navigation state, the screen still
initializes: `mode`, `requestId` and `supporterId` all read as `undefined`,
the header renders the requester-role subtitle (mode is not `"supporter"`),
the state machine is unaffected by the context (every event has the same
enabledness and the same effect on status, ETA and supporter location
whatever the context is), and completing the session after arrival issues the
navigation to `"/rating"` with an undefined supporter id and role. -/
theorem missing_inbound_state_defaults :
    readContext none =
      { mode := none, requestId := none, supporterId := none } ∧
    subtitle (readContext none) = "Track your supporter" ∧
    (initState none).status = Status.on_way ∧
    (∀ (e : Event) (s : ScreenState) (c : InboundState),
      (apply e { s with ctx := c }).status = (apply e s).status ∧
      (apply e { s with ctx := c }).estimatedTime = (apply e s).estimatedTime ∧
      (apply e { s with ctx := c }).supporterLocation = (apply e s).supporterLocation ∧
      (enabled { s with ctx := c } e ↔ enabled s e)) ∧
    (apply Event.completeClick (apply Event.arrival (initState none))).navCalls =
      [{ target := "/rating", supporterId := none, mode := none }] := by
  refine ⟨rfl, by simp [subtitle, readContext], rfl, ?_, rfl⟩
  intro e s c
  cases e <;> exact ⟨rfl, rfl, rfl, Iff.rfl⟩

end LiveTracking
